import Mathlib

/-! Verification development for the enterprise-doc-qa core: a shallow
embedding of the chunking engine (`src/components/chunking.py`) and of the
RAG pipeline (`src/components/retrieval.py`, `src/components/embeddings.py`),
with theorems settling the specified properties of both components.

Text is modelled as `List Char` (Python strings are sequences of code
points and `len` counts characters), dictionaries as association lists
with Python's update semantics, environment lookups as explicit `Option`
parameters, and exceptions as `Except`. -/

namespace DocQA

/-- Characters Python's `str.strip` removes (the ASCII whitespace set:
space, tab, linefeed, carriage return, vertical tab, form feed). -/
def pyIsSpace (c : Char) : Bool :=
  c = ' ' || c = '\t' || c = '\n' || c = '\r' || c = Char.ofNat 11 || c = Char.ofNat 12

/-- Python strings, modelled as lists of characters. -/
abbrev Str := List Char

/-- Convert a Lean string literal to the character-list model. -/
def chars (s : String) : Str := s.data

/-- Python `str.lstrip()`. -/
def lstrip (s : Str) : Str := s.dropWhile pyIsSpace

/-- Python `str.rstrip()`. -/
def rstrip (s : Str) : Str := (s.reverse.dropWhile pyIsSpace).reverse

/-- Python `str.strip()`. -/
def pyStrip (s : Str) : Str := lstrip (rstrip s)

/-- Worker for Python `str.split(sep)` with a non-empty separator: scan left
to right, emitting the accumulated segment at each non-overlapping occurrence
of `sep`.  The fuel argument (instantiated with the input length) only makes
the recursion structural; one character is consumed per step, so the fuel
never runs out. -/
def pySplitGo (sep : Str) : Nat → Str → Str → List Str
  | _, [], acc => [acc.reverse]
  | 0, s, acc => [acc.reverse ++ s]
  | fuel + 1, c :: rest, acc =>
    if sep.isPrefixOf (c :: rest) then
      acc.reverse :: pySplitGo sep fuel ((c :: rest).drop sep.length) []
    else
      pySplitGo sep fuel rest (c :: acc)

/-- Python `s.split(sep)` for a non-empty `sep` (the source guards the empty
case at the call site; Python itself raises on an empty separator, so the
`[]` branch here is never reached from the embedded code). -/
def pySplit (s sep : Str) : List Str :=
  match sep with
  | [] => [s]
  | _ => pySplitGo sep s.length s []

/-- Metadata values stored in chunk/document dictionaries. -/
inductive MVal where
  | int (n : Int)
  | str (s : String)
deriving DecidableEq, Repr

/-- A Python dict from string keys, as an association list in insertion
order. -/
abbrev Metadata := List (String × MVal)

/-- Python `d[k] = v`: overwrite in place if the key exists, else append. -/
def mset (m : Metadata) (k : String) (v : MVal) : Metadata :=
  if m.any (fun p => p.1 = k) then
    m.map (fun p => if p.1 = k then (k, v) else p)
  else
    m ++ [(k, v)]

/-- The fixed separator priority list of `DocumentChunker.__init__`:
`["\n\n", "\n", ". ", " ", ""]`. -/
def defaultSeparators : List Str :=
  [chars "\n\n", chars "\n", chars ". ", chars " ", []]

/-- Python's falsy-`or` used by the constructor: `explicit or default`.
`None` and `0` are falsy and fall through to the default. -/
def pyOrInt (explicit : Option Int) (dflt : Int) : Int :=
  match explicit with
  | none => dflt
  | some v => if v = 0 then dflt else v

/-- The state a `DocumentChunker` holds after construction. -/
structure Chunker where
  chunk_size : Int
  chunk_overlap : Int
deriving DecidableEq, Repr

/-- `DocumentChunker.__init__`: `chunk_size or int(os.getenv('CHUNK_SIZE',
'1000'))` and likewise for the overlap.  The environment is passed in as the
already-parsed optional integers `envCS`, `envCO`; no validation of any kind
is performed by the source constructor. -/
def initChunker (chunk_size chunk_overlap : Option Int)
    (envCS envCO : Option Int) : Chunker :=
  { chunk_size := pyOrInt chunk_size (envCS.getD 1000)
    chunk_overlap := pyOrInt chunk_overlap (envCO.getD 200) }

/-- The recursive `split_by_separator` closure inside
`DocumentChunker._split_text`, with a ghost Boolean tagging each emitted
piece: `true` marks a piece emitted by the `not separators` base case (an
atomic unit no separator could reduce), `false` a piece kept at some
separator level.  Dropping the tags gives exactly the source's list.

Source behaviour embedded: split on the current separator (an empty
separator keeps the text whole); a split longer than `chunk_size` is recursed
on with the remaining separators (its separator is not re-appended); a
non-empty split within bounds is kept, re-appending the separator unless the
separator is empty or the split's *text* equals the last split's text (the
source compares `split != splits[-1]` by value). -/
def splitBySeparator (cs : Nat) : List Str → Str → List (Str × Bool)
  | [], t => [(t, true)]
  | sep :: rest, t =>
    let splits := if sep = [] then [t] else pySplit t sep
    let lastS := splits.getLastD []
    splits.flatMap fun s =>
      if s.length > cs then
        splitBySeparator cs rest s
      else if s ≠ [] then
        [(s ++ (if sep ≠ [] ∧ s ≠ lastS then sep else []), false)]
      else
        []

/-- The second pass of `_split_text`: greedily concatenate adjacent pieces
while the running chunk stays within `chunk_size`; on overflow, emit the
stripped running chunk and restart from the offending piece.  `current` is
the running chunk (initially empty). -/
def mergeLoop (cs : Nat) : Str → List Str → List Str
  | current, [] => if current ≠ [] then [pyStrip current] else []
  | current, piece :: rest =>
    if current.length + piece.length ≤ cs then
      mergeLoop cs (current ++ piece) rest
    else
      (if current ≠ [] then [pyStrip current] else []) ++ mergeLoop cs piece rest

/-- `DocumentChunker._split_text`: split by the separator cascade, then merge.
Note that `self.chunk_overlap` is never consulted anywhere in this function —
the source parses the overlap configuration but does not apply it. -/
def splitText (cs : Nat) (text : Str) : List Str :=
  mergeLoop cs [] ((splitBySeparator cs defaultSeparators text).map Prod.fst)

/-- A chunk dictionary produced by `chunk_text`. -/
structure Chunk where
  text : Str
  metadata : Metadata
deriving DecidableEq, Repr

/-- `DocumentChunker.chunk_text`: empty or whitespace-only text yields `[]`;
otherwise each piece of `_split_text` becomes a chunk whose metadata is a
copy of the caller's metadata updated with `chunk_index`, `total_chunks`
and `chunk_size`. -/
def chunkText (cs : Nat) (text : Str) (metadata : Metadata) : List Chunk :=
  if text = [] ∨ pyStrip text = [] then []
  else
    let cks := splitText cs text
    cks.enum.map fun p =>
      { text := p.2
        metadata :=
          mset (mset (mset metadata "chunk_index" (.int p.1))
            "total_chunks" (.int cks.length)) "chunk_size" (.int p.2.length) }

/-- A document dictionary passed to `chunk_documents` (`text` plus a
`metadata` mapping). -/
structure Document where
  text : Str
  metadata : Metadata
deriving DecidableEq, Repr

/-- Worker for `chunk_documents`, in state-passing style: returns the
produced chunks together with the post-call state of the caller's document
list.  The source executes `metadata = doc.get('metadata', {})` followed by
`metadata['document_index'] = doc_idx`, which writes through the alias into
the caller-owned dictionary, so the returned documents carry the mutation. -/
def chunkDocumentsGo (cs : Nat) (idx : Nat) :
    List Document → List Chunk × List Document
  | [] => ([], [])
  | d :: ds =>
    let md := mset d.metadata "document_index" (.int idx)
    let cks := chunkText cs d.text md
    let rest := chunkDocumentsGo cs (idx + 1) ds
    (cks ++ rest.1, { d with metadata := md } :: rest.2)

/-- `DocumentChunker.chunk_documents` (chunks produced, documents as the
caller observes them after the call). -/
def chunkDocuments (cs : Nat) (docs : List Document) :
    List Chunk × List Document :=
  chunkDocumentsGo cs 0 docs

/-- The dictionary returned by `get_chunk_stats`; fields absent from the
empty-input branch are `none`.  The average is kept exact as a rational. -/
structure ChunkStats where
  total_chunks : Nat
  avg_chunk_size : Option ℚ
  min_chunk_size : Option Nat
  max_chunk_size : Option Nat
  total_characters : Option Nat
deriving DecidableEq, Repr

/-- `DocumentChunker.get_chunk_stats`: `{'total_chunks': 0}` on an empty
list, else count, mean, min, max and total of the chunk text lengths. -/
def getChunkStats (cks : List Chunk) : ChunkStats :=
  if cks = [] then ⟨0, none, none, none, none⟩
  else
    let sizes : List Nat := cks.map (fun c => c.text.length)
    { total_chunks := cks.length
      avg_chunk_size := some ((sizes.sum : ℚ) / (sizes.length : ℚ))
      min_chunk_size := some ((sizes.min?).getD 0)
      max_chunk_size := some ((sizes.max?).getD 0)
      total_characters := some sizes.sum }

/-- The apostrophe character, used in the source's literal messages. -/
def apos : String := String.singleton (Char.ofNat 39)

/-- The fixed no-documents message of `RAGPipeline.query`. -/
def noDocsMessage : String :=
  "I don" ++ apos ++
    "t have any documents to answer your question. Please upload documents first."

/-- A formatted result dictionary returned by `VectorStore.search`
(lines 119-127 of `embeddings.py`): raw text, metadata, the raw distance
reported by the store (`none` models Python `None`, used when the store
returns no distances), and the chunk id.  The store's scores are modelled
as rationals; the formatting code copies them without any arithmetic. -/
structure RetrievalResult where
  text : String
  metadata : Metadata
  distance : Option ℚ
  id : Option String
deriving DecidableEq, Repr

/-- The result-formatting loop of `VectorStore.search`, specialised to the
single-query shape ChromaDB returns (`results['documents'][0]` etc.):
for each index of the returned document list, build a dictionary with
`text`, `metadata` (`{}` when the store returned no metadatas), `distance`
(`None` when no distances) and `id` (`None` when no ids).  The raw distance
is copied verbatim — no conversion to a similarity is performed. -/
def formatSearchResults (docs : List String) (mds : Option (List Metadata))
    (dists : Option (List ℚ)) (ids : Option (List String)) :
    List RetrievalResult :=
  (List.range docs.length).map fun i =>
    { text := docs.getD i ""
      metadata := (mds.map fun l => l.getD i []).getD []
      distance := dists.map fun l => l.getD i 0
      id := ids.map fun l => l.getD i "" }

/-- `RAGPipeline.retrieve_context`, given the list the vector store's
`search` returned: empty results yield `([], "")`; otherwise each result is
tagged with a 1-based `[Document i]` marker and the sections are joined by
blank lines. -/
def retrieveContext (results : List RetrievalResult) :
    List RetrievalResult × String :=
  if results = [] then ([], "")
  else
    (results,
      String.intercalate "\n\n" (results.enum.map fun p =>
        "[Document " ++ toString (p.1 + 1) ++ "]\n" ++ p.2.text))

/-- The default grounding system prompt of `RAGPipeline.generate_answer`. -/
def defaultSystemPrompt : String :=
  "You are a helpful AI assistant that answers questions based on the provided context documents.\n\nRules:\n1. Answer ONLY based on the information in the provided documents\n2. If the answer is not in the documents, say \"I don" ++ apos ++
    "t have enough information to answer that question\"\n3. Cite which document number(s) you used when answering\n4. Be concise but complete\n5. If multiple documents have relevant information, synthesize them"

/-- The user turn `generate_answer` assembles: the context block followed by
the literal question. -/
def buildUserMessage (context query : String) : String :=
  "Context Documents:\n" ++ context ++ "\n\nQuestion: " ++ query ++
    "\n\nPlease provide a clear, accurate answer based on the context above."

/-- `RAGPipeline.generate_answer`: choose the system prompt (`None` or an
empty override falls back to the default, via Python `if not system_prompt`),
call the completion collaborator, and propagate its outcome unchanged
(the source re-raises any exception).  The collaborator is the function
`complete system_prompt user_message`, returning `Except` to model an
exception carrying its message. -/
def generateAnswer (complete : String → String → Except String String)
    (query context : String) (system_prompt : Option String) :
    Except String String :=
  let sp := match system_prompt with
    | none => defaultSystemPrompt
    | some s => if s = "" then defaultSystemPrompt else s
  complete sp (buildUserMessage context query)

/-- The response dictionary of `RAGPipeline.query`.  Keys absent from a
branch of the source are `none`: the error branch has no `context` or
`num_sources` key, the no-documents branch has no `num_sources` or `error`
key, and the success branch has no `error` key. -/
structure RAGResponse where
  answer : String
  sources : List RetrievalResult
  context : Option String
  num_sources : Option Nat
  error : Option String
deriving DecidableEq, Repr

/-- `RAGPipeline.query`: retrieval (whose outcome, a result list or an
exception from the store, is `searchRes`), the empty-results short-circuit,
generation, and the catch-all turning any exception into a degraded
response `{'answer': 'Error processing your question: …', 'sources': [],
'error': str(e)}`. -/
def pyQuery (searchRes : Except String (List RetrievalResult))
    (complete : String → String → Except String String)
    (question : String) : RAGResponse :=
  match searchRes with
  | .error e =>
    { answer := "Error processing your question: " ++ e, sources := []
      context := none, num_sources := none, error := some e }
  | .ok results =>
    let rc := retrieveContext results
    if rc.1 = [] then
      { answer := noDocsMessage, sources := [], context := some ""
        num_sources := none, error := none }
    else
      match generateAnswer complete question rc.2 none with
      | .ok answer =>
        { answer := answer, sources := rc.1, context := some rc.2
          num_sources := some rc.1.length, error := none }
      | .error e =>
        { answer := "Error processing your question: " ++ e, sources := []
          context := none, num_sources := none, error := some e }

/-! Helper lemmas about stripping and the splitter, shared by the claim
theorems below. -/

theorem lstrip_length_le (s : Str) : (lstrip s).length ≤ s.length := by
  simpa [lstrip] using (List.dropWhile_sublist (l := s) (p := pyIsSpace)).length_le

theorem rstrip_length_le (s : Str) : (rstrip s).length ≤ s.length := by
  simpa [rstrip] using
    (List.dropWhile_sublist (l := s.reverse) (p := pyIsSpace)).length_le

theorem pyStrip_length_le (s : Str) : (pyStrip s).length ≤ s.length :=
  le_trans (lstrip_length_le _) (rstrip_length_le _)

theorem rstrip_append_le (s sep : Str) :
    (rstrip (s ++ sep)).length ≤ s.length + (rstrip sep).length := by
  simp only [rstrip, List.reverse_append, List.length_reverse]
  rw [List.dropWhile_append]
  split
  · have := (List.dropWhile_sublist (l := s.reverse) (p := pyIsSpace)).length_le
    simp at this ⊢
    omega
  · simp
    omega

theorem pyStrip_append_le (s sep : Str) :
    (pyStrip (s ++ sep)).length ≤ s.length + (rstrip sep).length :=
  le_trans (lstrip_length_le _) (rstrip_append_le s sep)

theorem pyStrip_eq_nil (s : Str) (h : ∀ c ∈ s, pyIsSpace c = true) :
    pyStrip s = [] := by
  have hr : rstrip s = [] := by
    have : s.reverse.dropWhile pyIsSpace = [] := by
      rw [List.dropWhile_eq_nil_iff]
      intro x hx; exact h x (List.mem_reverse.mp hx)
    simp [rstrip, this]
  simp [pyStrip, hr, lstrip, List.dropWhile]

/-- A piece tagged atomic by the splitter was reached through the
recursion on an over-long split, so (below the top level) it is longer
than `chunk_size`. -/
theorem atom_oversized (cs : Nat) :
    ∀ (seps : List Str) (t p : Str), (p, true) ∈ splitBySeparator cs seps t →
      (seps = [] ∧ p = t) ∨ cs < p.length := by
  intro seps
  induction seps with
  | nil =>
    intro t p h
    simp [splitBySeparator] at h
    exact Or.inl ⟨rfl, h⟩
  | cons sep rest ih =>
    intro t p h
    simp only [splitBySeparator, List.mem_flatMap] at h
    obtain ⟨s, _, hmem⟩ := h
    by_cases hlen : s.length > cs
    · rw [if_pos hlen] at hmem
      rcases ih s p hmem with ⟨_, hp⟩ | h2
      · exact Or.inr (hp ▸ hlen)
      · exact Or.inr h2
    · rw [if_neg hlen] at hmem
      split at hmem <;> simp at hmem

theorem rstrip_ite_le (C : Prop) [Decidable C] (sep : Str)
    (h : (rstrip sep).length ≤ 1) :
    (rstrip (if C then sep else [])).length ≤ 1 := by
  split
  · exact h
  · simp [rstrip]

/-- Every non-atomic piece the splitter emits is a retained split (of length
at most `chunk_size`) with its separator re-appended, and each separator of
the cascade keeps at most one character after right-stripping. -/
theorem piece_decomp (cs : Nat) :
    ∀ (seps : List Str), (∀ sp ∈ seps, (rstrip sp).length ≤ 1) →
      ∀ (t p : Str), (p, false) ∈ splitBySeparator cs seps t →
        ∃ s sp, p = s ++ sp ∧ s.length ≤ cs ∧ (rstrip sp).length ≤ 1 := by
  intro seps
  induction seps with
  | nil =>
    intro _ t p h
    simp [splitBySeparator] at h
  | cons sep rest ih =>
    intro hseps t p h
    simp only [splitBySeparator, List.mem_flatMap] at h
    obtain ⟨s, _, hmem⟩ := h
    by_cases hlen : s.length > cs
    · rw [if_pos hlen] at hmem
      exact ih (fun sp hsp => hseps sp (List.mem_cons_of_mem _ hsp)) s p hmem
    · rw [if_neg hlen] at hmem
      split at hmem
      · simp at hmem
        subst hmem
        refine ⟨s, _, rfl, by omega, ?_⟩
        exact rstrip_ite_le _ sep (hseps sep (List.mem_cons_self sep rest))
      · simp at hmem

/-- Invariant of the merge pass: if every piece either strips to within
`chunk_size + 1` or satisfies `A`, every emitted chunk is within
`chunk_size + 1` or is the stripped form of an `A`-piece. -/
theorem mergeLoop_bound (cs : Nat) (A : Str → Prop) :
    ∀ (pieces : List Str) (current : Str),
      (∀ p ∈ pieces, (pyStrip p).length ≤ cs + 1 ∨ A p) →
      (current.length ≤ cs ∨ (pyStrip current).length ≤ cs + 1 ∨ A current) →
      ∀ c ∈ mergeLoop cs current pieces,
        c.length ≤ cs + 1 ∨ ∃ p, A p ∧ c = pyStrip p := by
  intro pieces
  induction pieces with
  | nil =>
    intro current _ hc c hmem
    simp only [mergeLoop] at hmem
    split at hmem
    · simp at hmem
      subst hmem
      rcases hc with h | h | h
      · exact Or.inl (le_trans (pyStrip_length_le _) (by omega))
      · exact Or.inl h
      · exact Or.inr ⟨current, h, rfl⟩
    · simp at hmem
  | cons piece rest ih =>
    intro current hp hc c hmem
    simp only [mergeLoop] at hmem
    by_cases hfit : current.length + piece.length ≤ cs
    · rw [if_pos hfit] at hmem
      refine ih (current ++ piece) (fun q hq => hp q (List.mem_cons_of_mem _ hq)) ?_ c hmem
      left; simp; omega
    · rw [if_neg hfit] at hmem
      rcases List.mem_append.mp hmem with hm | hm
      · split at hm
        · simp at hm
          subst hm
          rcases hc with h | h | h
          · exact Or.inl (le_trans (pyStrip_length_le _) (by omega))
          · exact Or.inl h
          · exact Or.inr ⟨current, h, rfl⟩
        · simp at hm
      · refine ih piece (fun q hq => hp q (List.mem_cons_of_mem _ hq)) ?_ c hm
        rcases hp piece (List.mem_cons_self piece rest) with h | h
        · exact Or.inr (Or.inl h)
        · exact Or.inr (Or.inr h)

theorem defaultSeparators_rstrip :
    ∀ sp ∈ defaultSeparators, (rstrip sp).length ≤ 1 := by decide

/-- Size bound for `_split_text`: every chunk is within `chunk_size + 1`,
or is the stripped form of an oversized atomic piece of the splitter. -/
theorem splitText_bound (cs : Nat) (text : Str) :
    ∀ c ∈ splitText cs text,
      c.length ≤ cs + 1 ∨
      ∃ p, ((p, true) ∈ splitBySeparator cs defaultSeparators text ∧
        cs < p.length) ∧ c = pyStrip p := by
  have hmain := mergeLoop_bound cs
    (fun p => (p, true) ∈ splitBySeparator cs defaultSeparators text ∧ cs < p.length)
    ((splitBySeparator cs defaultSeparators text).map Prod.fst) []
  refine fun c hc => hmain ?_ ?_ c hc
  · intro p hp
    obtain ⟨q, hq, hq2⟩ := List.mem_map.mp hp
    rcases q with ⟨q1, b⟩
    have hq1 : q1 = p := hq2
    subst hq1
    cases b with
    | true =>
      right
      refine ⟨hq, ?_⟩
      rcases atom_oversized cs defaultSeparators text q1 hq with ⟨hnil, _⟩ | h2
      · simp [defaultSeparators] at hnil
      · exact h2
    | false =>
      left
      obtain ⟨s, sp, hdec, hs, hsp⟩ :=
        piece_decomp cs defaultSeparators defaultSeparators_rstrip text q1 hq
      calc (pyStrip q1).length ≤ s.length + (rstrip sp).length := by
            rw [hdec]; exact pyStrip_append_le s sp
        _ ≤ cs + 1 := by omega
  · left; simp

/-! Claim theorems. -/

/-- Claim C1 (code bug, witnessed at a failing input): with the valid
configuration `chunk_size=5, chunk_overlap=3`, chunking `"abc def"` produces
the chunks `"abc"` and `"def"`, and the second chunk does not begin with the
trailing `min(chunk_overlap, size(previous))` characters of the first —
`_split_text` never consults `chunk_overlap`, so no overlap is prepended. -/
theorem c1_overlap_not_applied :
    initChunker (some 5) (some 3) none none = ⟨5, 3⟩ ∧
    (chunkText 5 (chars "abc def") []).map Chunk.text = [chars "abc", chars "def"] ∧
    (chars "def").take (min 3 (chars "abc").length) ≠
      (chars "abc").drop ((chars "abc").length - min 3 (chars "abc").length) :=
  ⟨rfl, by decide, by decide⟩

/-- Claim C2 (code bug, witnessed at a failing input): with `chunk_size=4`,
chunking `"Bye. Hi. Hi"` yields `["Bye.", "HiHi"]`.  The input contains two
period characters but the concatenated chunks only one: the `". "` separator
after the middle `"Hi"` is dropped because the splitter compares
`split != splits[-1]` by value rather than by position.  Since periods are
not whitespace and de-duplication can only remove further characters, no
reading of the coverage claim reconstructs the input. -/
theorem c2_coverage_violated :
    (chunkText 4 (chars "Bye. Hi. Hi") []).map Chunk.text = [chars "Bye.", chars "HiHi"] ∧
    (((chunkText 4 (chars "Bye. Hi. Hi") []).map Chunk.text).flatten).count '.' = 1 ∧
    (chars "Bye. Hi. Hi").count '.' = 2 :=
  ⟨by decide, by decide, by decide⟩

/-- Claim C3 (amended): for every input text and valid configuration, every
chunk produced by `chunk_text` has size at most `chunk_size + 1`, except a
chunk that is the trimmed form of a single atomic unit (a piece emitted with
no remaining separator) longer than `chunk_size`, which is emitted oversized.
The original bound `size ≤ chunk_size` fails by exactly one character for a
chunk that kept the re-appended `". "` separator, of which trimming removes
only the trailing space. -/
theorem c3_size_bound_amended (cs : Nat) (_hcs : 0 < cs) (text : Str) (md : Metadata) :
    ∀ ch ∈ chunkText cs text md,
      ch.text.length ≤ cs + 1 ∨
      ∃ p, ((p, true) ∈ splitBySeparator cs defaultSeparators text ∧
        cs < p.length) ∧ ch.text = pyStrip p := by
  intro ch hch
  unfold chunkText at hch
  split at hch
  · simp at hch
  · obtain ⟨pair, hpair, hch2⟩ := List.mem_map.mp hch
    have ht : ch.text = pair.2 := by rw [← hch2]
    rw [ht]
    exact splitText_bound cs text pair.2 (List.snd_mem_of_mem_enum hpair)

/-- Claim C3 witness: the amended bound applied to the concrete run
`chunk_size=3`, text `"abc. d"`, at its first chunk `"abc."`. -/
theorem c3_size_bound_amended_witness :
    0 < 3 ∧
    (⟨chars "abc.", [("chunk_index", MVal.int 0), ("total_chunks", MVal.int 2),
        ("chunk_size", MVal.int 4)]⟩ : Chunk) ∈ chunkText 3 (chars "abc. d") [] ∧
    ((chars "abc.").length ≤ 3 + 1 ∨
      ∃ p, ((p, true) ∈ splitBySeparator 3 defaultSeparators (chars "abc. d") ∧
        3 < p.length) ∧ chars "abc." = pyStrip p) :=
  ⟨by decide, by decide,
    c3_size_bound_amended 3 (by decide) (chars "abc. d") []
      ⟨chars "abc.", [("chunk_index", MVal.int 0), ("total_chunks", MVal.int 2),
        ("chunk_size", MVal.int 4)]⟩ (by decide)⟩

/-- Claim C3 counterexample to the original statement: with `chunk_size=3`
the text `"abc. d"` produces the chunk `"abc."` of size 4 > 3, although the
splitter emitted no atomic piece at all for this input (every piece had a
usable separator), so the claimed exception cannot account for it. -/
theorem c3_counterexample :
    (chunkText 3 (chars "abc. d") []).map Chunk.text = [chars "abc.", chars "d"] ∧
    3 < (chars "abc.").length ∧
    (splitBySeparator 3 defaultSeparators (chars "abc. d")).filter (fun p => p.2) = [] :=
  ⟨by decide, by decide, by decide⟩

/-- Claim C4 (amended): the constructor performs no validation whatsoever —
any explicit non-zero `chunk_size` and `chunk_overlap` (including
`chunk_overlap ≥ chunk_size` and negative `chunk_size`) are stored verbatim
and construction always succeeds; explicit `0` or `None` silently fall back
to the environment defaults. -/
theorem c4_no_validation (v w : Int) (hv : v ≠ 0) (hw : w ≠ 0) (e1 e2 : Option Int) :
    initChunker (some v) (some w) e1 e2 = ⟨v, w⟩ := by
  simp [initChunker, pyOrInt, hv, hw]

/-- Claim C4 witness: the nonsensical configuration `chunk_size=-7,
chunk_overlap=500` is accepted verbatim. -/
theorem c4_no_validation_witness :
    (-7 : Int) ≠ 0 ∧ (500 : Int) ≠ 0 ∧
    initChunker (some (-7)) (some 500) none none = ⟨-7, 500⟩ :=
  ⟨by decide, by decide, c4_no_validation (-7) 500 (by decide) (by decide) none none⟩

/-- Claim C4 counterexample to the original statement: constructing with
`chunk_size=100, chunk_overlap=500` does not fail — it returns a chunker
whose stored overlap is not smaller than its stored size, so the malformed
configuration is silently accepted. -/
theorem c4_counterexample :
    initChunker (some 100) (some 500) none none = ⟨100, 500⟩ ∧
    (initChunker (some 100) (some 500) none none).chunk_size ≤
      (initChunker (some 100) (some 500) none none).chunk_overlap :=
  ⟨rfl, by decide⟩

/-- Claim C10: because the constructor uses falsy-`or` defaulting, an
explicit `chunk_size=0` or `chunk_overlap=0` is ignored and replaced by the
environment-derived default, which is `1000` resp. `200` when the
environment variables are unset. -/
theorem c10_zero_falls_back_to_default (e1 e2 : Option Int) :
    initChunker (some 0) (some 0) e1 e2 = ⟨e1.getD 1000, e2.getD 200⟩ ∧
    initChunker (some 0) (some 0) none none = ⟨1000, 200⟩ := by
  constructor
  · simp [initChunker, pyOrInt]
  · rfl

/-- Claim C8 (code bug, witnessed at a failing input): `chunk_documents`
writes `document_index` through the alias into the caller-owned metadata
dictionary, so after the call the input document is no longer equal to what
the caller passed in. -/
theorem c8_documents_mutated :
    (chunkDocuments 1000 [⟨chars "ab", []⟩]).2 =
      [⟨chars "ab", [("document_index", MVal.int 0)]⟩] ∧
    (chunkDocuments 1000 [⟨chars "ab", []⟩]).2 ≠ [⟨chars "ab", ([] : Metadata)⟩] :=
  ⟨by decide, by decide⟩

/-- Claim C9: chunking an empty or whitespace-only text returns the empty
list (the embedding is total, so no exception is possible), and the
statistics of an empty chunk list report a total of zero with every other
field absent. -/
theorem c9_empty_input (cs : Nat) (text : Str) (md : Metadata)
    (h : ∀ c ∈ text, pyIsSpace c = true) :
    chunkText cs text md = [] ∧
    getChunkStats [] = ⟨0, none, none, none, none⟩ := by
  refine ⟨?_, rfl⟩
  have hs : pyStrip text = [] := pyStrip_eq_nil text h
  simp [chunkText, hs]

/-- Claim C9 witness: the whitespace-only text `"  \n "`. -/
theorem c9_empty_input_witness :
    (∀ c ∈ chars "  \n ", pyIsSpace c = true) ∧
    (chunkText 1000 (chars "  \n ") [] = [] ∧
      getChunkStats [] = ⟨0, none, none, none, none⟩) :=
  ⟨by decide, c9_empty_input 1000 (chars "  \n ") [] (by decide)⟩

/-- Claim C6: when retrieval returns an empty result list, `query` returns
the fixed no-documents message with empty sources, empty context and no
error field, for every completion collaborator — so the collaborator is
never invoked and its behaviour cannot influence the response. -/
theorem c6_no_results_fallback
    (complete : String → String → Except String String) (q : String) :
    pyQuery (Except.ok []) complete q =
      { answer := noDocsMessage, sources := [], context := some ""
        num_sources := none, error := none } := rfl

/-- Claim C5 (amended): if the generation collaborator raises with message
`e`, `query` returns a degraded response whose answer embeds the failure
cause, with empty sources and the error field populated with `e` — the
exception is never propagated.  The error value equals the exception's
message and hence is non-empty exactly when the message is. -/
theorem c5_generation_failure_degraded (results : List RetrievalResult)
    (e q : String) (h : results ≠ []) :
    pyQuery (Except.ok results) (fun _ _ => Except.error e) q =
      { answer := "Error processing your question: " ++ e, sources := []
        context := none, num_sources := none, error := some e } := by
  simp [pyQuery, retrieveContext, h, generateAnswer]

/-- Claim C5 witness: a concrete one-result retrieval with a generation
failure carrying the message `"boom"`. -/
theorem c5_generation_failure_degraded_witness :
    ([⟨"d", [], none, none⟩] : List RetrievalResult) ≠ [] ∧
    pyQuery (Except.ok [⟨"d", [], none, none⟩]) (fun _ _ => Except.error "boom") "q" =
      { answer := "Error processing your question: boom", sources := []
        context := none, num_sources := none, error := some "boom" } :=
  ⟨by simp, c5_generation_failure_degraded [⟨"d", [], none, none⟩] "boom" "q" (by simp)⟩

/-- Claim C5 counterexample to the original statement: an exception whose
string form is empty yields `error = some ""` — the error field is present
but empty, refuting the claimed non-emptiness. -/
theorem c5_counterexample :
    (pyQuery (Except.ok [⟨"d", [], none, none⟩])
      (fun _ _ => Except.error "") "q").error = some "" := rfl

/-- Claim C7 (amended): the results `search` supplies carry the raw store
distance, passed through unmodified (`none` when the store returns no
distances); no similarity in the unit interval is computed. -/
theorem c7_distance_passthrough (docs : List String) (mds : Option (List Metadata))
    (dists : List ℚ) (ids : Option (List String)) (h : dists.length = docs.length) :
    (formatSearchResults docs mds (some dists) ids).map RetrievalResult.distance =
      dists.map some := by
  apply List.ext_getElem
  · simp [formatSearchResults, h]
  · intro i h1 h2
    have hi : i < dists.length := by simpa using h2
    simp [formatSearchResults, List.getD_eq_getElem dists 0 hi,
      List.getElem?_eq_getElem hi]

/-- Claim C7 witness: a single result with raw distance 2. -/
theorem c7_distance_passthrough_witness :
    ([(2:ℚ)].length = ["d"].length) ∧
    (formatSearchResults ["d"] none (some [(2:ℚ)]) none).map RetrievalResult.distance =
      [(2:ℚ)].map some :=
  ⟨rfl, c7_distance_passthrough ["d"] none [(2:ℚ)] none rfl⟩

/-- Claim C7 counterexample to the original statement: a store result with
cosine distance 2 (a legal value for opposite vectors) is handed to the
orchestrator carrying the score 2, which lies outside `[0, 1]` — the value
is a raw distance, not a similarity. -/
theorem c7_counterexample :
    (formatSearchResults ["d"] none (some [(2:ℚ)]) none).map RetrievalResult.distance =
      [some (2:ℚ)] ∧ ¬ ((2:ℚ) ≤ 1) :=
  ⟨rfl, by norm_num⟩

end DocQA
